import Mathlib

/-!
Shallow embedding of the CBIS_DDSM organizer scripts
(`cbis_correct.py`, `cbis_final.py`) and proofs about their
identifier-to-category resolution and file-organization pipeline.
-/

namespace CBIS

/-- Classification target: the three output folders of the organizer scripts
("calcifications", "masses", "unknown"). -/
inductive Category
  | calc
  | mass
  | unknown
deriving DecidableEq

/-- Provenance tag recorded in the mapping entries of
`cbis_final.py::create_complete_mapping`; the code uses the string values
"case_files", "dicom_info" and "default". -/
inductive Src
  | caseFiles
  | dicomInfo
  | defaultSrc
deriving DecidableEq

/-- One row of a calc/mass case-description table. The only field the code
reads is the column named "image file path" (`row.get('image file path', '')`).
`none` models a pandas NaN value; a missing column is modelled by
`some ""` since `row.get` defaults to the empty string. -/
structure CaseRow where
  image_file_path : Option String
deriving DecidableEq

/-- Python `str.strip()`: drop whitespace from both ends. (Defined over the
character list so the kernel can evaluate it.) -/
def pyStrip (s : String) : String :=
  ⟨((s.data.dropWhile Char.isWhitespace).reverse.dropWhile Char.isWhitespace).reverse⟩

/-- Splitting a character list at every occurrence of a separator,
modelling Python `str.split(sep)` for a one-character separator. -/
def splitChars (sep : Char) : List Char → List (List Char)
  | [] => [[]]
  | c :: rest =>
      let r := splitChars sep rest
      if c = sep then [] :: r
      else
        match r with
        | [] => [[c]]
        | h :: t => (c :: h) :: t

/-- Python `s.split(sep)` for a one-character separator. -/
def pySplit (s : String) (sep : Char) : List String :=
  (splitChars sep s.data).map (fun l => ⟨l⟩)

/-- Python `s.endswith(suffix)`. -/
def pyEndsWith (s suffix : String) : Bool :=
  List.isSuffixOf suffix.data s.data

/-- Python `s.lower()` (ASCII case folding is all the code relies on). -/
def pyLower (s : String) : String :=
  ⟨s.data.map Char.toLower⟩

/-- Identifier extraction of `cbis_correct.py` lines 41-47: skip the row when
the field is NaN or strips to the empty string, split the path on "/" and
take the segment at index 1 when there are at least two segments. -/
def extractSeriesUID (image_path : Option String) : Option String :=
  match image_path with
  | none => none
  | some s =>
      if pyStrip s = "" then none
      else
        let parts := pySplit s '/'
        if 2 ≤ parts.length then parts.get? 1 else none

/-- Identifier extraction of `cbis_final.py` lines 60-66 and 76-81: only the
NaN check guards the row (no blank-string check), then split on "/" and take
index 1 when there are at least two segments. -/
def extractSeriesUIDFinal (image_path : Option String) : Option String :=
  match image_path with
  | none => none
  | some s =>
      let parts := pySplit s '/'
      if 2 ≤ parts.length then parts.get? 1 else none

/-- All series identifiers contributed by one loaded case table
(`cbis_correct.py` row loop). -/
def collectSeriesUIDs (rows : List CaseRow) : List String :=
  rows.filterMap (fun r => extractSeriesUID r.image_file_path)

/-- All series identifiers contributed by one loaded case table
(`cbis_final.py` row loop). -/
def collectSeriesUIDsFinal (rows : List CaseRow) : List String :=
  rows.filterMap (fun r => extractSeriesUIDFinal r.image_file_path)

/-- The identifier set built from a list of case-table files
(`cbis_correct.py::get_calc_series_uids` / `get_mass_series_uids`).
`none` models a file for which `file_path.exists()` is false: the file is
skipped and contributes nothing. -/
def getSeriesUIDs (tables : List (Option (List CaseRow))) : List String :=
  tables.foldl (fun acc t =>
    match t with
    | none => acc
    | some rows => acc ++ collectSeriesUIDs rows) []

/-- The identifier set built from a list of case-table files in
`cbis_final.py::create_complete_mapping` (same `exists()` guard, final-variant
row extraction). -/
def getSeriesUIDsFinal (tables : List (Option (List CaseRow))) : List String :=
  tables.foldl (fun acc t =>
    match t with
    | none => acc
    | some rows => acc ++ collectSeriesUIDsFinal rows) []

/-- A discovered JPEG file. `relParts` is `some` the component list of
`img_path.relative_to(self.jpeg_path)` when `relative_to` succeeds, and
`none` when it raises (file not under the image root). -/
structure ImageFile where
  relParts : Option (List String)
  filename : String
  fullPath : String
deriving DecidableEq

/-- Series-identifier derivation of `cbis_correct.py` lines 106-110 and
`cbis_final.py` lines 103-107: first component of the path relative to the
image root; the bare `except` turns any failure (including `parts[0]` on an
empty tuple) into the literal string "unknown". -/
def deriveSeriesUID (relParts : Option (List String)) : String :=
  match relParts with
  | none => "unknown"
  | some [] => "unknown"
  | some (p :: _) => p

/-- Category resolution of `cbis_correct.py` lines 113-127 and
`cbis_final.py` lines 114-119: membership in the calc set is checked first,
then the mass set, else unknown. -/
def resolveCategory (calcSeries massSeries : List String) (uid : String) : Category :=
  if uid ∈ calcSeries then Category.calc
  else if uid ∈ massSeries then Category.mass
  else Category.unknown

/-- Modelled from the spec: the IdentifierIndex as §3 and §4.1 describe it —
"built by applying sources in increasing precedence: a later source's entries
overwrite an earlier source's entries for the same identifier". Each source
is a set of identifiers with a fixed category; sources are applied in list
order and a later source overwrites an earlier one. Used only to compare the
spec's merge rule against the code's `resolveCategory`. -/
def specIndex (sources : List (List String × Category)) : String → Category :=
  sources.foldl
    (fun acc src => fun uid => if uid ∈ src.1 then src.2 else acc uid)
    (fun _ => Category.unknown)

/-- One classification outcome of `cbis_correct.py::organize_all_images`:
the file, its resolved category, and its destination
`<category folder>/<bare filename>`. -/
structure Outcome where
  file : ImageFile
  category : Category
  dest : Category × String
deriving DecidableEq

/-- Classification of one discovered file in
`cbis_correct.py::organize_all_images` (lines 104-127), separated from the
copy side effect. -/
def classifyFile (calcS massS : List String) (f : ImageFile) : Outcome :=
  let uid := deriveSeriesUID f.relParts
  let c := resolveCategory calcS massS uid
  ⟨f, c, (c, f.filename)⟩

/-- The classification pass of `cbis_correct.py::organize_all_images`: one
outcome per discovered file, in traversal order. -/
def classifyAll (calcS massS : List String) (files : List ImageFile) : List Outcome :=
  files.map (classifyFile calcS massS)

/-- One row of `dicom_info.csv` as read by `cbis_final.py`; `none` models a
NaN in the corresponding column. -/
structure DicomRow where
  image_path : Option String
  seriesInstanceUID : Option String
  patientName : Option String
deriving DecidableEq

/-- The final path component, modelling `Path(p).name` for the
slash-separated paths stored in `dicom_info.csv`. -/
def pathName (p : String) : String :=
  (pySplit p '/').getLastD ""

/-- The `filename_to_series` dictionary of `cbis_final.py` lines 40-45:
for every row whose `image_path` and `SeriesInstanceUID` are both non-NaN,
map the basename of `image_path` to the row's series identifier; a later
row overwrites an earlier one for the same filename. -/
def buildFilenameToSeries (rows : List DicomRow) : String → Option String :=
  rows.foldl
    (fun acc r =>
      match r.image_path, r.seriesInstanceUID with
      | some p, some uid => fun fn => if fn = pathName p then some uid else acc fn
      | _, _ => acc)
    (fun _ => none)

/-- Substring test on character lists, modelling Python's `in` operator on
strings. -/
def listContains (pat : List Char) : List Char → Bool
  | [] => pat.isPrefixOf ([] : List Char)
  | c :: rest => pat.isPrefixOf (c :: rest) || listContains pat rest

/-- Substring test on strings, modelling Python's `sub in s`. -/
def strContains (s pat : String) : Bool :=
  listContains pat.data s.data

/-- The dicom_info fallback of `cbis_final.py` lines 120-134: look the bare
filename up in `filename_to_series`, take the first `dicom_info` row whose
`SeriesInstanceUID` equals that series, and if its `PatientName` is non-NaN,
lowercase it and test for the substrings "mass" then "calc"; any failure on
the way leaves the defaults (unknown, "default"). -/
def dicomFallback (dicomRows : List DicomRow) (f2s : String → Option String)
    (filename : String) : Category × Src :=
  match f2s filename with
  | none => (Category.unknown, Src.defaultSrc)
  | some target =>
      match (dicomRows.filter (fun r => decide (r.seriesInstanceUID = some target))).head? with
      | none => (Category.unknown, Src.defaultSrc)
      | some row =>
          match row.patientName with
          | none => (Category.unknown, Src.defaultSrc)
          | some pn =>
              let s := pyLower pn
              if strContains s "mass" then (Category.mass, Src.dicomInfo)
              else if strContains s "calc" then (Category.calc, Src.dicomInfo)
              else (Category.unknown, Src.defaultSrc)

/-- Per-file category and source determination of
`cbis_final.py::create_complete_mapping` lines 109-134: case-file sets are
consulted first (calc then mass); only when the identifier is in neither is
the dicom_info fallback consulted. -/
def classifyFinal (calcS massS : List String) (dicomRows : List DicomRow)
    (f2s : String → Option String) (uid filename : String) : Category × Src :=
  if uid ∈ calcS then (Category.calc, Src.caseFiles)
  else if uid ∈ massS then (Category.mass, Src.caseFiles)
  else dicomFallback dicomRows f2s filename

/-- The value stored per filename in `final_mapping`
(`cbis_final.py` lines 136-141). -/
structure MapInfo where
  category : Category
  source : Src
  series_uid : String
  full_path : String
deriving DecidableEq

/-- The mapping entry computed for one discovered file in
`cbis_final.py::create_complete_mapping`. -/
def mapInfoFor (calcS massS : List String) (dicomRows : List DicomRow)
    (f2s : String → Option String) (f : ImageFile) : MapInfo :=
  let uid := deriveSeriesUID f.relParts
  let cs := classifyFinal calcS massS dicomRows f2s uid f.filename
  ⟨cs.1, cs.2, uid, f.fullPath⟩

/-- Insertion into an association list with Python-dict semantics:
overwriting an existing key keeps its position, a new key is appended. -/
def insertMapping (m : List (String × MapInfo)) (k : String) (v : MapInfo) :
    List (String × MapInfo) :=
  if m.any (fun p => decide (p.1 = k)) then
    m.map (fun p => if p.1 = k then (k, v) else p)
  else m ++ [(k, v)]

/-- The `final_mapping` dictionary of `cbis_final.py` lines 88-141, keyed by
bare filename: a later discovered file with the same bare filename
overwrites the entry of an earlier one. -/
def buildFinalMapping (calcS massS : List String) (dicomRows : List DicomRow)
    (f2s : String → Option String) (files : List ImageFile) :
    List (String × MapInfo) :=
  files.foldl (fun m f => insertMapping m f.filename (mapInfoFor calcS massS dicomRows f2s f)) []

/-- `cbis_final.py::create_complete_mapping` lines 32-141. The dicom_info
table is read with no `exists()` guard (line 34), so its absence raises and
is modelled as an error; the calc/mass case tables are guarded and skipped
when absent. -/
def createCompleteMapping (dicomInfo : Option (List DicomRow))
    (calcTables massTables : List (Option (List CaseRow)))
    (files : List ImageFile) : Except String (List (String × MapInfo)) :=
  match dicomInfo with
  | none => Except.error "dicom_info.csv not found"
  | some rows =>
      Except.ok (buildFinalMapping (getSeriesUIDsFinal calcTables)
        (getSeriesUIDsFinal massTables) rows (buildFilenameToSeries rows) files)

/-- The four moved/error counters of both organizers. -/
structure Counters where
  calcMoved : Nat
  massMoved : Nat
  unknownMoved : Nat
  errors : Nat
deriving DecidableEq

/-- Total of all four counters. -/
def sumCounters (c : Counters) : Nat :=
  c.calcMoved + c.massMoved + c.unknownMoved + c.errors

/-- Per-file counter update of `cbis_correct.py::organize_all_images` lines
99-139: the per-file `try` catches any copy failure, incrementing only the
error counter; on success exactly one category counter is incremented. -/
def processFile (calcS massS : List String) (copyFails : ImageFile → Bool)
    (c : Counters) (f : ImageFile) : Counters :=
  if copyFails f then ⟨c.calcMoved, c.massMoved, c.unknownMoved, c.errors + 1⟩
  else
    match resolveCategory calcS massS (deriveSeriesUID f.relParts) with
    | Category.calc => ⟨c.calcMoved + 1, c.massMoved, c.unknownMoved, c.errors⟩
    | Category.mass => ⟨c.calcMoved, c.massMoved + 1, c.unknownMoved, c.errors⟩
    | Category.unknown => ⟨c.calcMoved, c.massMoved, c.unknownMoved + 1, c.errors⟩

/-- The counter loop of `cbis_correct.py::organize_all_images`, parametrised
by which files' copies fail. -/
def organizeAllImages (calcS massS : List String) (copyFails : ImageFile → Bool)
    (files : List ImageFile) : Counters :=
  files.foldl (processFile calcS massS copyFails) ⟨0, 0, 0, 0⟩

/-- Per-entry counter update of `cbis_final.py::organize_images` lines
170-198: iterates the mapping entries, not the discovered files. -/
def processEntry (copyFails : String × MapInfo → Bool)
    (c : Counters) (e : String × MapInfo) : Counters :=
  if copyFails e then ⟨c.calcMoved, c.massMoved, c.unknownMoved, c.errors + 1⟩
  else
    match e.2.category with
    | Category.calc => ⟨c.calcMoved + 1, c.massMoved, c.unknownMoved, c.errors⟩
    | Category.mass => ⟨c.calcMoved, c.massMoved + 1, c.unknownMoved, c.errors⟩
    | Category.unknown => ⟨c.calcMoved, c.massMoved, c.unknownMoved + 1, c.errors⟩

/-- The counter loop of `cbis_final.py::organize_images`. -/
def organizeImagesFinal (copyFails : String × MapInfo → Bool)
    (mapping : List (String × MapInfo)) : Counters :=
  mapping.foldl (processEntry copyFails) ⟨0, 0, 0, 0⟩

/-- The destination directory tree: per category folder and bare filename,
the source path whose content currently sits there (`none` = no file). -/
def DestStore : Type := Category → String → Option String

/-- One `shutil.copy2(img_path, <category dir>/<filename>)`: silently
overwrites whatever was at the destination. -/
def copyTo (s : DestStore) (c : Category) (name src : String) : DestStore :=
  fun c2 n2 => if c2 = c ∧ n2 = name then some src else s c2 n2

/-- Destination-tree effect of processing one file in
`cbis_correct.py::organize_all_images`: a failing copy leaves the tree
unchanged, a succeeding one overwrites the destination. -/
def processStore (calcS massS : List String) (copyFails : ImageFile → Bool)
    (s : DestStore) (f : ImageFile) : DestStore :=
  if copyFails f then s
  else copyTo s (resolveCategory calcS massS (deriveSeriesUID f.relParts)) f.filename f.fullPath

/-- Destination-tree effect of the whole copy loop of
`cbis_correct.py::organize_all_images`, in traversal order. -/
def organizeStore (calcS massS : List String) (copyFails : ImageFile → Bool)
    (files : List ImageFile) (init : DestStore) : DestStore :=
  files.foldl (processStore calcS massS copyFails) init

/-- Whether a discovered file writes the destination `(c, name)`: its copy
succeeds, it resolves to category `c` and carries bare filename `name`. -/
def copyTargets (calcS massS : List String) (copyFails : ImageFile → Bool)
    (c : Category) (name : String) (f : ImageFile) : Bool :=
  !copyFails f &&
    decide (resolveCategory calcS massS (deriveSeriesUID f.relParts) = c ∧ f.filename = name)

/-- The last element of a list satisfying a predicate, if any. -/
def lastMatching (p : ImageFile → Bool) : List ImageFile → Option ImageFile
  | [] => none
  | f :: rest =>
      match lastMatching p rest with
      | some g => some g
      | none => if p f then some f else none

/-- One full run of the cbis_correct pipeline over already-built identifier
sets and discovered files: the reported counters and the resulting
destination tree. -/
def runPipeline (calcS massS : List String) (copyFails : ImageFile → Bool)
    (files : List ImageFile) (store : DestStore) : Counters × DestStore :=
  (organizeAllImages calcS massS copyFails files,
   organizeStore calcS massS copyFails files store)

/-- The extension patterns the discovery glob matches
(`['*.jpg', '*.jpeg', '*.JPG', '*.JPEG']` in every variant). -/
def matchedExtensions : List String :=
  [".jpg", ".jpeg", ".JPG", ".JPEG"]

/-- Whether a bare filename matches one of the discovery glob's extension
patterns. -/
def isMatchedExt (name : String) : Bool :=
  matchedExtensions.any (fun e => pyEndsWith name e)

/-- Count of the files a destination folder's verification glob
`dir.glob("*.jpg")` returns: only names ending in the lowercase ".jpg". -/
def countJpg (names : List String) : Nat :=
  (names.filter (fun n => pyEndsWith n ".jpg")).length

/-- `cbis_correct.py::verify_final_organization` lines 151-184: recount each
destination folder with `glob("*.jpg")`, sum, compare with 10237; returns
the success flag and the total (mismatch is a warning, not an exception). -/
def verifyFinalOrganization (calcFiles massFiles unknownFiles : List String) :
    Bool × Nat :=
  let total := countJpg calcFiles + countJpg massFiles + countJpg unknownFiles
  (total == 10237, total)

end CBIS

namespace CBIS

/-- Claim C1 counterexample: the spec's merge rule (later-applied source
overwrites) and the code's resolution disagree on an identifier present in
both the calc and the mass case tables: with calc tables applied before
mass tables (the code's processing order), the spec's index resolves "S1"
to mass, but the code resolves it to calc. -/
theorem C1_counterexample :
    specIndex [(["S1"], Category.calc), (["S1"], Category.mass)] "S1" = Category.mass ∧
    resolveCategory ["S1"] ["S1"] "S1" = Category.calc ∧
    Category.mass ≠ Category.calc := by
  decide

/-- Claim C1 (amended): resolution gives the first-checked source priority —
an identifier in the calc set resolves to calc regardless of mass
membership; only identifiers absent from the calc set are resolved by the
mass set; identifiers in neither resolve to unknown. -/
theorem C1_first_source_priority (calcS massS : List String) (uid : String) :
    (uid ∈ calcS → resolveCategory calcS massS uid = Category.calc) ∧
    (uid ∉ calcS → uid ∈ massS → resolveCategory calcS massS uid = Category.mass) ∧
    (uid ∉ calcS → uid ∉ massS → resolveCategory calcS massS uid = Category.unknown) := by
  refine ⟨fun h => ?_, fun h1 h2 => ?_, fun h1 h2 => ?_⟩
  · simp [resolveCategory, h]
  · simp [resolveCategory, h1, h2]
  · simp [resolveCategory, h1, h2]

/-- Claim C1 witness: the three resolution branches at concrete inputs. -/
theorem C1_witness :
    resolveCategory ["S1"] ["S1"] "S1" = Category.calc ∧
    resolveCategory ["S1"] ["S2"] "S2" = Category.mass ∧
    resolveCategory ["S1"] ["S2"] "S3" = Category.unknown :=
  ⟨(C1_first_source_priority ["S1"] ["S1"] "S1").1 (by decide),
   (C1_first_source_priority ["S1"] ["S2"] "S2").2.1 (by decide) (by decide),
   (C1_first_source_priority ["S1"] ["S2"] "S3").2.2 (by decide) (by decide)⟩

/-- Claim C3: identifier extraction takes the slash-separated segment at
index 1; a missing (NaN), blank, or fewer-than-two-segment path field
contributes nothing, in both script variants; a table whose rows are all
unusable contributes zero index entries. -/
theorem C3_identifier_extraction :
    (extractSeriesUID none = none) ∧
    (∀ s : String, pyStrip s = "" → extractSeriesUID (some s) = none) ∧
    (∀ s : String, (pySplit s '/').length < 2 → extractSeriesUID (some s) = none) ∧
    (∀ s : String, pyStrip s ≠ "" → 2 ≤ (pySplit s '/').length →
      extractSeriesUID (some s) = (pySplit s '/').get? 1) ∧
    (extractSeriesUIDFinal none = none) ∧
    (∀ s : String, (pySplit s '/').length < 2 → extractSeriesUIDFinal (some s) = none) ∧
    (∀ s : String, 2 ≤ (pySplit s '/').length →
      extractSeriesUIDFinal (some s) = (pySplit s '/').get? 1) ∧
    (∀ rows : List CaseRow, (∀ r ∈ rows, extractSeriesUID r.image_file_path = none) →
      collectSeriesUIDs rows = []) ∧
    (∀ rows : List CaseRow, (∀ r ∈ rows, extractSeriesUIDFinal r.image_file_path = none) →
      collectSeriesUIDsFinal rows = []) := by
  refine ⟨rfl, fun s h => ?_, fun s h => ?_, fun s h1 h2 => ?_, rfl,
    fun s h => ?_, fun s h => ?_, fun rows h => ?_, fun rows h => ?_⟩
  · simp [extractSeriesUID, h]
  · have h2 : ¬ (2 ≤ (pySplit s '/').length) := by omega
    simp [extractSeriesUID, h2]
  · simp [extractSeriesUID, h1, h2]
  · have h2 : ¬ (2 ≤ (pySplit s '/').length) := by omega
    simp [extractSeriesUIDFinal, h2]
  · simp [extractSeriesUIDFinal, h]
  · simp only [collectSeriesUIDs]
    rw [List.filterMap_eq_nil_iff]
    exact h
  · simp only [collectSeriesUIDsFinal]
    rw [List.filterMap_eq_nil_iff]
    exact h

/-- Claim C3 witness: a blank path, a slash-free path, a well-formed path,
and a table of unusable rows, all at concrete inputs. -/
theorem C3_witness :
    extractSeriesUID (some "   ") = none ∧
    extractSeriesUID (some "nopath") = none ∧
    extractSeriesUID (some "Calc-Test_P_00038/1.2.3/1.2.3/000000.dcm") = some "1.2.3" ∧
    collectSeriesUIDs [⟨none⟩, ⟨some "  "⟩, ⟨some "x"⟩] = [] :=
  ⟨C3_identifier_extraction.2.1 "   " (by decide),
   C3_identifier_extraction.2.2.1 "nopath" (by decide),
   (C3_identifier_extraction.2.2.2.1 "Calc-Test_P_00038/1.2.3/1.2.3/000000.dcm"
     (by decide) (by decide)).trans (by decide),
   C3_identifier_extraction.2.2.2.2.2.2.2.1 [⟨none⟩, ⟨some "  "⟩, ⟨some "x"⟩] (by decide)⟩

/-- Claim C10: a file whose identifier derivation fails gets the literal
string "unknown" as its identifier and is looked up like any other
identifier: it resolves to calc or mass whenever a case table contributed
the identifier "unknown", and to the unknown category only otherwise. -/
theorem C10_unknown_literal (calcS massS : List String) :
    deriveSeriesUID none = "unknown" ∧
    resolveCategory calcS massS (deriveSeriesUID none) = resolveCategory calcS massS "unknown" ∧
    ("unknown" ∈ calcS → resolveCategory calcS massS (deriveSeriesUID none) = Category.calc) ∧
    ("unknown" ∉ calcS → "unknown" ∈ massS →
      resolveCategory calcS massS (deriveSeriesUID none) = Category.mass) ∧
    ("unknown" ∉ calcS → "unknown" ∉ massS →
      resolveCategory calcS massS (deriveSeriesUID none) = Category.unknown) := by
  refine ⟨rfl, rfl, fun h => ?_, fun h1 h2 => ?_, fun h1 h2 => ?_⟩
  · simp [resolveCategory, deriveSeriesUID, h]
  · simp [resolveCategory, deriveSeriesUID, h1, h2]
  · simp [resolveCategory, deriveSeriesUID, h1, h2]

/-- Claim C10 witness: a root-less file classified by a metadata-contributed
"unknown" identifier, and by the fallback, at concrete inputs. -/
theorem C10_witness :
    resolveCategory ["unknown"] [] (deriveSeriesUID none) = Category.calc ∧
    resolveCategory [] ["unknown"] (deriveSeriesUID none) = Category.mass ∧
    resolveCategory [] [] (deriveSeriesUID none) = Category.unknown :=
  ⟨(C10_unknown_literal ["unknown"] []).2.2.1 (by decide),
   (C10_unknown_literal [] ["unknown"]).2.2.2.1 (by decide) (by decide),
   (C10_unknown_literal [] []).2.2.2.2 (by decide) (by decide)⟩

end CBIS

namespace CBIS

/-- Length of a dict-style insertion: unchanged when the key is present,
one longer when it is new. -/
lemma insertMapping_length (m : List (String × MapInfo)) (k : String) (v : MapInfo) :
    (insertMapping m k v).length =
      if m.any (fun p => decide (p.1 = k)) then m.length else m.length + 1 := by
  unfold insertMapping
  split
  · simp [List.length_map, *]
  · simp [*]

/-- A filename is among the mapping's keys iff the dict-style `any` test on
the first components succeeds. -/
lemma mem_keys_iff_any (m : List (String × MapInfo)) (k : String) :
    k ∈ m.map Prod.fst ↔ m.any (fun p => decide (p.1 = k)) = true := by
  simp only [List.any_eq_true, decide_eq_true_eq, List.mem_map]

/-- Appending one discovered file to the traversal performs one dict-style
insertion into the final mapping. -/
lemma buildFinalMapping_append (calcS massS : List String) (dicomRows : List DicomRow)
    (f2s : String → Option String) (files : List ImageFile) (f : ImageFile) :
    buildFinalMapping calcS massS dicomRows f2s (files ++ [f]) =
      insertMapping (buildFinalMapping calcS massS dicomRows f2s files) f.filename
        (mapInfoFor calcS massS dicomRows f2s f) := by
  simp [buildFinalMapping, List.foldl_append]

/-- Claim C2 counterexample: two discovered files in different
subdirectories share the bare filename "x.jpg"; the cbis_final mapping,
keyed by bare filename, retains a single entry — one of the two files
produces no surviving outcome. -/
theorem C2_counterexample :
    Except.map List.length
        (createCompleteMapping (some []) [] []
          [⟨some ["a"], "x.jpg", "jpeg/a/x.jpg"⟩, ⟨some ["b"], "x.jpg", "jpeg/b/x.jpg"⟩]) =
      Except.ok 1 ∧
    ([(⟨some ["a"], "x.jpg", "jpeg/a/x.jpg"⟩ : ImageFile),
      ⟨some ["b"], "x.jpg", "jpeg/b/x.jpg"⟩] : List ImageFile).length = 2 :=
  ⟨rfl, rfl⟩

/-- Claim C2 (amended): the cbis_correct classification pass yields exactly
one outcome per discovered file; the cbis_final mapping instead yields one
entry per distinct bare filename — discovering a further file whose
filename is already a key leaves the entry count unchanged (the earlier
file's outcome is overwritten). -/
theorem C2_one_outcome_per_file :
    (∀ (calcS massS : List String) (files : List ImageFile),
      (classifyAll calcS massS files).length = files.length) ∧
    (∀ (calcS massS : List String) (dicomRows : List DicomRow)
        (f2s : String → Option String) (files : List ImageFile) (f : ImageFile),
      f.filename ∈ (buildFinalMapping calcS massS dicomRows f2s files).map Prod.fst →
      (buildFinalMapping calcS massS dicomRows f2s (files ++ [f])).length =
        (buildFinalMapping calcS massS dicomRows f2s files).length) := by
  constructor
  · intro calcS massS files
    simp [classifyAll]
  · intro calcS massS dicomRows f2s files f hmem
    rw [buildFinalMapping_append, insertMapping_length,
      if_pos ((mem_keys_iff_any _ _).mp hmem)]

/-- Claim C2 witness: the two colliding files of the counterexample, fed
through the amended statement. -/
theorem C2_witness :
    (buildFinalMapping [] [] [] (fun _ => none)
        ([⟨some ["a"], "x.jpg", "jpeg/a/x.jpg"⟩] ++ [⟨some ["b"], "x.jpg", "jpeg/b/x.jpg"⟩])).length =
      (buildFinalMapping [] [] [] (fun _ => none)
        [⟨some ["a"], "x.jpg", "jpeg/a/x.jpg"⟩]).length :=
  C2_one_outcome_per_file.2 [] [] [] (fun _ => none)
    [⟨some ["a"], "x.jpg", "jpeg/a/x.jpg"⟩] ⟨some ["b"], "x.jpg", "jpeg/b/x.jpg"⟩
    (by decide)

/-- Claim C5 counterexample: an absent `dicom_info.csv` is read with no
existence guard in `cbis_final.py::create_complete_mapping` and aborts
mapping construction with an error rather than contributing zero entries. -/
theorem C5_counterexample :
    createCompleteMapping none [] [] [] = Except.error "dicom_info.csv not found" :=
  rfl

/-- Claim C5 (amended): a missing calc/mass case-description table is
skipped and contributes zero identifiers in both script variants, but a
missing `dicom_info.csv` makes `create_complete_mapping` fail for every
choice of the remaining inputs. -/
theorem C5_missing_sources :
    (∀ (pre post : List (Option (List CaseRow))),
      getSeriesUIDs (pre ++ none :: post) = getSeriesUIDs (pre ++ post)) ∧
    (∀ (pre post : List (Option (List CaseRow))),
      getSeriesUIDsFinal (pre ++ none :: post) = getSeriesUIDsFinal (pre ++ post)) ∧
    (∀ (calcTables massTables : List (Option (List CaseRow))) (files : List ImageFile),
      ∃ e, createCompleteMapping none calcTables massTables files = Except.error e) := by
  refine ⟨fun pre post => ?_, fun pre post => ?_, fun calcTables massTables files => ⟨_, rfl⟩⟩
  · simp only [getSeriesUIDs, List.foldl_append, List.foldl_cons]
  · simp only [getSeriesUIDsFinal, List.foldl_append, List.foldl_cons]

end CBIS

namespace CBIS

/-- Every processed file increments exactly one of the four counters. -/
lemma sumCounters_processFile (calcS massS : List String) (copyFails : ImageFile → Bool)
    (c : Counters) (f : ImageFile) :
    sumCounters (processFile calcS massS copyFails c f) = sumCounters c + 1 := by
  unfold processFile
  split
  · simp [sumCounters]
    omega
  · split <;> (simp [sumCounters]; omega)

/-- Every processed mapping entry increments exactly one of the four
counters. -/
lemma sumCounters_processEntry (copyFails : String × MapInfo → Bool)
    (c : Counters) (e : String × MapInfo) :
    sumCounters (processEntry copyFails c e) = sumCounters c + 1 := by
  unfold processEntry
  split
  · simp [sumCounters]
    omega
  · split <;> (simp [sumCounters]; omega)

/-- Counter-sum invariant of the cbis_correct copy loop, for any starting
counters. -/
lemma sumCounters_foldl_processFile (calcS massS : List String)
    (copyFails : ImageFile → Bool) :
    ∀ (files : List ImageFile) (c : Counters),
      sumCounters (files.foldl (processFile calcS massS copyFails) c) =
        sumCounters c + files.length := by
  intro files
  induction files with
  | nil => intro c; simp
  | cons f rest ih =>
      intro c
      simp only [List.foldl_cons, List.length_cons, ih, sumCounters_processFile]
      omega

/-- Counter-sum invariant of the cbis_final copy loop, for any starting
counters. -/
lemma sumCounters_foldl_processEntry (copyFails : String × MapInfo → Bool) :
    ∀ (mapping : List (String × MapInfo)) (c : Counters),
      sumCounters (mapping.foldl (processEntry copyFails) c) =
        sumCounters c + mapping.length := by
  intro mapping
  induction mapping with
  | nil => intro c; simp
  | cons e rest ih =>
      intro c
      simp only [List.foldl_cons, List.length_cons, ih, sumCounters_processEntry]
      omega

/-- Claim C6 counterexample: with no copy failures at all, the cbis_final
pipeline over two discovered files that share the bare filename "y.jpg"
reports counters summing to 1, although 2 files were discovered — the sum
of the category counters plus the error counter does not equal the number
of discovered files. -/
theorem C6_counterexample :
    Except.map (fun m => sumCounters (organizeImagesFinal (fun _ => false) m))
        (createCompleteMapping (some []) [] []
          [⟨some ["c"], "y.jpg", "jpeg/c/y.jpg"⟩, ⟨some ["d"], "y.jpg", "jpeg/d/y.jpg"⟩]) =
      Except.ok 1 ∧
    ([(⟨some ["c"], "y.jpg", "jpeg/c/y.jpg"⟩ : ImageFile),
      ⟨some ["d"], "y.jpg", "jpeg/d/y.jpg"⟩] : List ImageFile).length = 2 :=
  ⟨rfl, rfl⟩

/-- Claim C6 (amended): a per-file copy failure is caught, increments only
the error counter and never aborts; in cbis_correct the four counters sum
to the number of discovered files, while in cbis_final they sum to the
number of mapping entries (distinct bare filenames), which the
counterexample shows can be fewer than the discovered files. -/
theorem C6_failure_accounting :
    (∀ (calcS massS : List String) (copyFails : ImageFile → Bool) (files : List ImageFile),
      sumCounters (organizeAllImages calcS massS copyFails files) = files.length) ∧
    (∀ (copyFails : String × MapInfo → Bool) (mapping : List (String × MapInfo)),
      sumCounters (organizeImagesFinal copyFails mapping) = mapping.length) ∧
    (∀ (calcS massS : List String) (copyFails : ImageFile → Bool) (c : Counters) (f : ImageFile),
      copyFails f = true →
      processFile calcS massS copyFails c f =
        ⟨c.calcMoved, c.massMoved, c.unknownMoved, c.errors + 1⟩) := by
  refine ⟨fun calcS massS copyFails files => ?_, fun copyFails mapping => ?_,
    fun calcS massS copyFails c f h => ?_⟩
  · unfold organizeAllImages
    rw [sumCounters_foldl_processFile]
    simp [sumCounters]
  · unfold organizeImagesFinal
    rw [sumCounters_foldl_processEntry]
    simp [sumCounters]
  · simp [processFile, h]

/-- Claim C6 witness: a failing copy at concrete counters increments only
the error counter. -/
theorem C6_witness :
    processFile [] [] (fun _ => true) ⟨1, 2, 3, 4⟩ ⟨some ["a"], "x.jpg", "jpeg/a/x.jpg"⟩ =
      (⟨1, 2, 3, 5⟩ : Counters) :=
  C6_failure_accounting.2.2 [] [] (fun _ => true) ⟨1, 2, 3, 4⟩
    ⟨some ["a"], "x.jpg", "jpeg/a/x.jpg"⟩ rfl

/-- Claim C7 counterexample: "a.jpeg" carries an extension the discovery
glob matches (so the organizer copies such files), yet the verification
pass counts zero files in a destination folder containing exactly it —
the recount covers only names matching "*.jpg", not every matched
extension. -/
theorem C7_counterexample :
    isMatchedExt "a.jpeg" = true ∧
    verifyFinalOrganization ["a.jpeg"] [] [] = (false, 0) := by
  decide

/-- Claim C7 (amended): the verification pass counts only files whose name
ends in the lowercase ".jpg" in each destination folder, reports success
exactly when the sum equals 10237, and a present file with any other
matched extension does not change the verification result; mismatch yields
the failure flag of an ordinary return value, not an exception. -/
theorem C7_verification_jpg_only (calcFiles massFiles unknownFiles : List String) (n : String) :
    ((verifyFinalOrganization calcFiles massFiles unknownFiles).1 = true ↔
      (verifyFinalOrganization calcFiles massFiles unknownFiles).2 = 10237) ∧
    ((verifyFinalOrganization calcFiles massFiles unknownFiles).2 =
      countJpg calcFiles + countJpg massFiles + countJpg unknownFiles) ∧
    (isMatchedExt n = true → pyEndsWith n ".jpg" = false →
      verifyFinalOrganization (n :: calcFiles) massFiles unknownFiles =
        verifyFinalOrganization calcFiles massFiles unknownFiles) := by
  refine ⟨?_, rfl, fun h1 h2 => ?_⟩
  · simp [verifyFinalOrganization]
  · simp [verifyFinalOrganization, countJpg, List.filter_cons, h2]

/-- Claim C7 witness: a copied ".jpeg" file present in the calcifications
folder leaves the verification result unchanged. -/
theorem C7_witness :
    verifyFinalOrganization ["b.jpeg"] [] [] = verifyFinalOrganization [] [] [] :=
  (C7_verification_jpg_only [] [] [] "b.jpeg").2.2 (by decide) (by decide)

end CBIS

namespace CBIS

/-- Claim C4: the derived-category rule of the dicom_info fallback maps the
lowercased PatientName by substring match — "mass" wins over "calc", else
unknown — and the fallback is consulted exactly for identifiers absent from
both case-file sets (files whose identifier is in a case-file set get the
case_files source unconditionally). -/
theorem C4_derived_keyword_rule :
    (∀ (calcS massS : List String) (dicomRows : List DicomRow)
        (f2s : String → Option String) (uid filename : String),
      uid ∉ calcS → uid ∉ massS →
      classifyFinal calcS massS dicomRows f2s uid filename =
        dicomFallback dicomRows f2s filename) ∧
    (∀ (calcS massS : List String) (dicomRows : List DicomRow)
        (f2s : String → Option String) (uid filename : String),
      uid ∈ calcS ∨ uid ∈ massS →
      (classifyFinal calcS massS dicomRows f2s uid filename).2 = Src.caseFiles) ∧
    (∀ (dicomRows : List DicomRow) (f2s : String → Option String)
        (filename target : String) (row : DicomRow) (pn : String),
      f2s filename = some target →
      (dicomRows.filter (fun r => decide (r.seriesInstanceUID = some target))).head? =
        some row →
      row.patientName = some pn →
      ((strContains (pyLower pn) "mass" = true →
        dicomFallback dicomRows f2s filename = (Category.mass, Src.dicomInfo)) ∧
       (strContains (pyLower pn) "mass" = false → strContains (pyLower pn) "calc" = true →
        dicomFallback dicomRows f2s filename = (Category.calc, Src.dicomInfo)) ∧
       (strContains (pyLower pn) "mass" = false → strContains (pyLower pn) "calc" = false →
        dicomFallback dicomRows f2s filename = (Category.unknown, Src.defaultSrc)))) := by
  refine ⟨fun calcS massS dicomRows f2s uid filename h1 h2 => ?_,
    fun calcS massS dicomRows f2s uid filename h => ?_,
    fun dicomRows f2s filename target row pn hfn hrow hpn => ?_⟩
  · simp [classifyFinal, h1, h2]
  · rcases h with h | h
    · simp [classifyFinal, h]
    · by_cases hc : uid ∈ calcS
      · simp [classifyFinal, hc]
      · simp [classifyFinal, hc, h]
  · refine ⟨fun hm => ?_, fun hm hcal => ?_, fun hm hcal => ?_⟩
    · simp [dicomFallback, hfn, hrow, hpn, hm]
    · simp [dicomFallback, hfn, hrow, hpn, hm, hcal]
    · simp [dicomFallback, hfn, hrow, hpn, hm, hcal]

/-- Claim C4 witness: a concrete dicom_info table routing an unmatched file
to mass via its PatientName, a case-file hit bypassing the fallback, and
the fallback equation itself. -/
theorem C4_witness :
    classifyFinal [] [] [⟨some "p/x.jpg", some "U1", some "Mass-Training_P_00001"⟩]
        (buildFilenameToSeries [⟨some "p/x.jpg", some "U1", some "Mass-Training_P_00001"⟩])
        "S9" "x.jpg" =
      dicomFallback [⟨some "p/x.jpg", some "U1", some "Mass-Training_P_00001"⟩]
        (buildFilenameToSeries [⟨some "p/x.jpg", some "U1", some "Mass-Training_P_00001"⟩])
        "x.jpg" ∧
    (classifyFinal ["S7"] [] [] (fun _ => none) "S7" "x.jpg").2 = Src.caseFiles ∧
    dicomFallback [⟨some "p/x.jpg", some "U1", some "Mass-Training_P_00001"⟩]
        (buildFilenameToSeries [⟨some "p/x.jpg", some "U1", some "Mass-Training_P_00001"⟩])
        "x.jpg" =
      (Category.mass, Src.dicomInfo) :=
  ⟨C4_derived_keyword_rule.1 [] [] [⟨some "p/x.jpg", some "U1", some "Mass-Training_P_00001"⟩]
      (buildFilenameToSeries [⟨some "p/x.jpg", some "U1", some "Mass-Training_P_00001"⟩])
      "S9" "x.jpg" (by decide) (by decide),
   C4_derived_keyword_rule.2.1 ["S7"] [] [] (fun _ => none) "S7" "x.jpg" (Or.inl (by decide)),
   (C4_derived_keyword_rule.2.2 [⟨some "p/x.jpg", some "U1", some "Mass-Training_P_00001"⟩]
      (buildFilenameToSeries [⟨some "p/x.jpg", some "U1", some "Mass-Training_P_00001"⟩])
      "x.jpg" "U1" ⟨some "p/x.jpg", some "U1", some "Mass-Training_P_00001"⟩
      "Mass-Training_P_00001" (by decide) (by decide) rfl).1 (by decide)⟩

/-- The destination a lookup sees after the whole copy loop is the
full path of the last discovered file (in traversal order) that copies
successfully to that destination, or the initial content when none does. -/
lemma organizeStore_lookup (calcS massS : List String) (copyFails : ImageFile → Bool)
    (files : List ImageFile) (init : DestStore) (c : Category) (name : String) :
    organizeStore calcS massS copyFails files init c name =
      (match lastMatching (copyTargets calcS massS copyFails c name) files with
       | some f => some f.fullPath
       | none => init c name) := by
  induction files generalizing init with
  | nil => rfl
  | cons f rest ih =>
      have hstep : organizeStore calcS massS copyFails (f :: rest) init =
          organizeStore calcS massS copyFails rest
            (processStore calcS massS copyFails init f) := rfl
      rw [hstep, ih]
      cases h : lastMatching (copyTargets calcS massS copyFails c name) rest with
      | some g => simp [lastMatching, h]
      | none =>
          simp only [lastMatching, h]
          by_cases hp : copyTargets calcS massS copyFails c name f = true
          · rw [if_pos hp]
            have hc : copyFails f = false ∧
                (resolveCategory calcS massS (deriveSeriesUID f.relParts) = c ∧
                  f.filename = name) := by
              simpa [copyTargets, Bool.and_eq_true, Bool.not_eq_true',
                decide_eq_true_eq] using hp
            simp [processStore, hc.1, copyTo, hc.2.1, hc.2.2]
          · rw [if_neg hp]
            simp only [copyTargets, Bool.and_eq_true, Bool.not_eq_true',
              decide_eq_true_eq, not_and] at hp
            by_cases hf : copyFails f = true
            · simp [processStore, hf]
            · have hf' : copyFails f = false := by
                cases hcf : copyFails f
                · rfl
                · exact absurd hcf hf
              have hnc : ¬ (resolveCategory calcS massS (deriveSeriesUID f.relParts) = c ∧
                  f.filename = name) := by
                intro hcc
                exact hp hf' hcc.1 hcc.2
              simp only [processStore, hf', Bool.false_eq_true, if_false, copyTo]
              rw [if_neg]
              intro hcc
              exact hnc ⟨hcc.1.symm, hcc.2.symm⟩

/-- The last match over a traversal extended by one file. -/
lemma lastMatching_append (p : ImageFile → Bool) (l : List ImageFile) (f : ImageFile) :
    lastMatching p (l ++ [f]) = if p f then some f else lastMatching p l := by
  induction l with
  | nil => rfl
  | cons a l ih =>
      rw [List.cons_append]
      show (match lastMatching p (l ++ [f]) with
            | some g => some g
            | none => if p a then some a else none) =
          if p f then some f else lastMatching p (a :: l)
      rw [ih]
      cases hpf : p f
      · simp only [hpf, Bool.false_eq_true, if_false]
        rfl
      · simp [hpf]

/-- Claim C8: the destination tree after the copy loop holds, at every
destination `(category folder, bare filename)`, the content of the last
discovered file that successfully copied there; in particular, when a
later file `f2` and an earlier file `f1` both copy to the same
destination, the final content is `f2`'s. -/
theorem C8_last_copy_wins (calcS massS : List String) (copyFails : ImageFile → Bool)
    (init : DestStore) (c : Category) (name : String) :
    (∀ files : List ImageFile,
      organizeStore calcS massS copyFails files init c name =
        (match lastMatching (copyTargets calcS massS copyFails c name) files with
         | some f => some f.fullPath
         | none => init c name)) ∧
    (∀ (pre mid : List ImageFile) (f1 f2 : ImageFile),
      copyTargets calcS massS copyFails c name f1 = true →
      copyTargets calcS massS copyFails c name f2 = true →
      organizeStore calcS massS copyFails (pre ++ f1 :: (mid ++ [f2])) init c name =
        some f2.fullPath) := by
  refine ⟨fun files => organizeStore_lookup calcS massS copyFails files init c name,
    fun pre mid f1 f2 h1 h2 => ?_⟩
  rw [organizeStore_lookup]
  have : lastMatching (copyTargets calcS massS copyFails c name)
      (pre ++ f1 :: (mid ++ [f2])) = some f2 := by
    have hl : pre ++ f1 :: (mid ++ [f2]) = (pre ++ f1 :: mid) ++ [f2] := by
      simp
    rw [hl, lastMatching_append, if_pos h2]
  rw [this]

/-- Claim C8 witness: two files in different subdirectories sharing the
bare filename "x.jpg" and the calc category; the destination ends up with
the later file's content. -/
theorem C8_witness :
    organizeStore ["S1"] [] (fun _ => false)
        ([] ++ (⟨some ["S1", "a", "x.jpg"], "x.jpg", "jpeg/S1/a/x.jpg"⟩ : ImageFile) ::
          ([] ++ [(⟨some ["S1", "b", "x.jpg"], "x.jpg", "jpeg/S1/b/x.jpg"⟩ : ImageFile)]))
        (fun _ _ => none) Category.calc "x.jpg" =
      some "jpeg/S1/b/x.jpg" :=
  (C8_last_copy_wins ["S1"] [] (fun _ => false) (fun _ _ => none) Category.calc "x.jpg").2
    [] [] ⟨some ["S1", "a", "x.jpg"], "x.jpg", "jpeg/S1/a/x.jpg"⟩
    ⟨some ["S1", "b", "x.jpg"], "x.jpg", "jpeg/S1/b/x.jpg"⟩ (by decide) (by decide)

/-- Claim C9: the pipeline is idempotent at the file level: a second run
over the same identifier sets, the same failure behaviour and the same
discovered files, starting from the destination tree the first run left
behind, reports the same counters and leaves the destination tree
unchanged. -/
theorem C9_pipeline_idempotent (calcS massS : List String) (copyFails : ImageFile → Bool)
    (files : List ImageFile) (init : DestStore) :
    runPipeline calcS massS copyFails files
        (runPipeline calcS massS copyFails files init).2 =
      runPipeline calcS massS copyFails files init := by
  unfold runPipeline
  simp only [Prod.mk.injEq]
  refine ⟨trivial, ?_⟩
  funext c name
  have h1 := organizeStore_lookup calcS massS copyFails files
    (organizeStore calcS massS copyFails files init) c name
  have h2 := organizeStore_lookup calcS massS copyFails files init c name
  rw [h1, h2]
  cases lastMatching (copyTargets calcS massS copyFails c name) files <;> rfl

end CBIS
